import Mathlib

/-!
Verification of the `img_edge_detector/edge_detect.py` pipeline.

The raster is modelled as a `Grid`: explicit height/width plus a total
indexing function `Nat → Nat → Int`.  Only indices `(y, x)` with
`y < h`, `x < w` correspond to actual NumPy array cells; the values of
the indexing function outside that rectangle are irrelevant junk (every
definition below reads only in-range cells, mirroring the Python, which
would raise on an out-of-range access).

PGM files are modelled as byte lists (`List Nat`, each entry in
`[0, 255]`).  Text decoding is modelled directly on the bytes; the regex
class `\s` and `str.isdigit` are taken at their ASCII meaning (the claims
and the repository only involve ASCII headers), and the text-mode output
handle is taken to use UTF-8, the usual default encoding.
-/

/-- A 2-D integer raster (NumPy array of shape `(h, w)`).  `data y x` is
the sample at row `y`, column `x` for `y < h`, `x < w`. -/
@[ext]
structure Grid where
  h : Nat
  w : Nat
  data : Nat → Nat → Int

/-- Build a grid from a row-major list of rows (rows assumed rectangular),
used only to write down concrete test rasters. -/
def gridOfLists (rows : List (List Int)) : Grid :=
  ⟨rows.length, (rows.headD []).length, fun y x => (rows.getD y []).getD x 0⟩

/-- Constant `THRESH_HI = 80` (edge_detect.py line 49). -/
def THRESH_HI : Int := 80

/-- Constant `THRESH_LO = 40` (edge_detect.py line 50). -/
def THRESH_LO : Int := 40

/-- Constant `MAX_VAL = 255` (edge_detect.py line 51). -/
def MAX_VAL : Int := 255

/-- The fixed 3×3 `LAPLACIAN` kernel (lines 46-48): centre `+8`, the eight
neighbours `-1`. -/
def LAPLACIAN : Grid :=
  ⟨3, 3, fun i j => if i = 1 ∧ j = 1 then 8 else -1⟩

/-- Python exception classes that the modelled code can raise. -/
inductive PyErr where
  /-- Python `TypeError` (e.g. calling a tuple as if it were a function). -/
  | typeError
  /-- the generic `Exception` raised by the PGM header parsing code
  (what the spec calls `FormatError`). -/
  | formatError
  /-- Python `NotImplementedError`, the class named in the
  unsupported-kernel branch of `apply_conv_kernel` (what the spec calls
  `ConfigurationError`). -/
  | notImplementedError
deriving DecidableEq

/-- Model of `np.pad(arr, (1, 1), "edge")`, the padded view used by every
stage.  `padEdge g i j` is entry `(i, j)` of the padded array, for
`i ≤ g.h + 1`, `j ≤ g.w + 1`: edge replication clamps the source index
to `[0, h-1] × [0, w-1]`.  (`Nat` subtraction makes `i = 0` clamp to row
0, matching NumPy.) -/
def padEdge (g : Grid) (i j : Nat) : Int :=
  g.data (min (i - 1) (g.h - 1)) (min (j - 1) (g.w - 1))

/-- Model of `np.sum(arr_padded[y:y+3, x:x+3] * conv_kernel_np)`
(line 198): the elementwise product sum of the 3×3 kernel with the padded
window whose top-left corner is padded position `(y, x)` — i.e. the
stencil centred at unpadded position `(y, x)`. -/
def conv_at (g k : Grid) (y x : Nat) : Int :=
  padEdge g y x       * k.data 0 0 + padEdge g y (x+1)       * k.data 0 1 + padEdge g y (x+2)       * k.data 0 2 +
  padEdge g (y+1) x   * k.data 1 0 + padEdge g (y+1) (x+1)   * k.data 1 1 + padEdge g (y+1) (x+2)   * k.data 1 2 +
  padEdge g (y+2) x   * k.data 2 0 + padEdge g (y+2) (x+1)   * k.data 2 1 + padEdge g (y+2) (x+2)   * k.data 2 2

/-- The convolution loop of `apply_conv_kernel` (lines 195-198):
`arr_conv = np.zeros(in.shape)` and then
`for y in range(in.shape[0] - 2): for x in range(in.shape[1] - 2): ...`.
Note the loop bounds are taken from the *unpadded* shape, so rows/columns
`h-2, h-1` (resp. `w-2, w-1`) are never written and keep their zero
initialisation. -/
def conv_grid (g k : Grid) : Grid :=
  ⟨g.h, g.w, fun y x =>
    if y < g.h - 2 ∧ x < g.w - 2 then conv_at g k y x else 0⟩

/-- Model of `apply_conv_kernel` (lines 177-201).  When the kernel shape
is not `(3, 3)` the source builds its error message with
`conv_kernel_np.shape()` — calling the shape *tuple* — which raises
`TypeError` before the intended `NotImplementedError` is ever raised. -/
def apply_conv_kernel (g k : Grid) : Except PyErr Grid :=
  if k.h = 3 ∧ k.w = 3 then .ok (conv_grid g k) else .error .typeError

/-- The suppression condition the spec states for thinning: the own value
of the pixel is an inclusive maximum or minimum of its own horizontal
3-pixel run or of its own vertical 3-pixel run.  Written from the words
of the spec (for interior pixels the padded view coincides with the raw
grid), to be compared with what `apply_edge_thinning` computes. -/
def specThinKeep (g : Grid) (y x : Nat) : Bool :=
  decide (g.data y x ≥ max (g.data y (x-1)) (max (g.data y x) (g.data y (x+1))) ∨
          g.data y x ≤ min (g.data y (x-1)) (min (g.data y x) (g.data y (x+1))) ∨
          g.data y x ≥ max (g.data (y-1) x) (max (g.data y x) (g.data (y+1) x)) ∨
          g.data y x ≤ min (g.data (y-1) x) (min (g.data y x) (g.data (y+1) x)))

/-- Model of `apply_edge_thinning` (lines 203-238): loops over
`y in range(1, h-1)`, `x in range(1, w-1)`; the centre pixel is read as
`arr_padded[y][x]` (which is input cell `(y-1, x-1)`), the 3-runs are
`arr_padded[y, x-1:x+2]` and `arr_padded[y-1:y+2, x]`, and on success the
*input* value at `(y, x)` is preserved into the output at `(y, x)`. -/
def apply_edge_thinning (g : Grid) : Grid :=
  ⟨g.h, g.w, fun y x =>
    if 1 ≤ y ∧ y < g.h - 1 ∧ 1 ≤ x ∧ x < g.w - 1 then
      if padEdge g y x ≥ max (padEdge g y (x-1)) (max (padEdge g y x) (padEdge g y (x+1))) ∨
         padEdge g y x ≤ min (padEdge g y (x-1)) (min (padEdge g y x) (padEdge g y (x+1))) ∨
         padEdge g y x ≥ max (padEdge g (y-1) x) (max (padEdge g y x) (padEdge g (y+1) x)) ∨
         padEdge g y x ≤ min (padEdge g (y-1) x) (min (padEdge g y x) (padEdge g (y+1) x))
      then g.data y x else 0
    else 0⟩

/-- Model of `np.any(strong_pxls[y-1:y+2, x-1:x+2])` (line 277): some
entry of the 3×3 window of the strong grid around `(y, x)` is nonzero
(for interior `(y, x)` the slice is the full 3×3 window). -/
def anyNonzero3x3 (g : Grid) (y x : Nat) : Bool :=
  decide (g.data (y-1) (x-1) ≠ 0 ∨ g.data (y-1) x ≠ 0 ∨ g.data (y-1) (x+1) ≠ 0 ∨
          g.data y (x-1) ≠ 0 ∨ g.data y x ≠ 0 ∨ g.data y (x+1) ≠ 0 ∨
          g.data (y+1) (x-1) ≠ 0 ∨ g.data (y+1) x ≠ 0 ∨ g.data (y+1) (x+1) ≠ 0)

/-- Pass 1 of `apply_edge_tracking` (lines 256-262): for interior
`(y, x)`, if `arr_padded[y][x]` (input cell `(y-1, x-1)`) is strictly
outside `±THRESH_HI`, store the input value at `(y, x)`. -/
def strong_pxls (g : Grid) : Grid :=
  ⟨g.h, g.w, fun y x =>
    if 1 ≤ y ∧ y < g.h - 1 ∧ 1 ≤ x ∧ x < g.w - 1 then
      if padEdge g y x > THRESH_HI ∨ padEdge g y x < -THRESH_HI then g.data y x else 0
    else 0⟩

/-- Pass 2 of `apply_edge_tracking` (lines 267-279): interior `(y, x)`
is skipped when `strong_pxls[y][x] > 0` (note: `> 0`, not `≠ 0`);
otherwise, if `arr_padded[y][x]` is strictly outside `±THRESH_LO` and the
3×3 window of the strong grid has a nonzero entry, store the input value
at `(y, x)`. -/
def weak_pxls (g : Grid) : Grid :=
  ⟨g.h, g.w, fun y x =>
    if 1 ≤ y ∧ y < g.h - 1 ∧ 1 ≤ x ∧ x < g.w - 1 then
      if (strong_pxls g).data y x > 0 then 0
      else if padEdge g y x > THRESH_LO ∨ padEdge g y x < -THRESH_LO then
        if anyNonzero3x3 (strong_pxls g) y x then g.data y x else 0
      else 0
    else 0⟩

/-- Model of `apply_edge_tracking` (lines 240-283): the output is the
elementwise sum `strong_pxls + weak_pxls` (line 281). -/
def apply_edge_tracking (g : Grid) : Grid :=
  ⟨g.h, g.w, fun y x => (strong_pxls g).data y x + (weak_pxls g).data y x⟩

/-- Model of `rectify_and_clip` (lines 285-303): absolute value of every
sample, then clip at `MAX_VAL`. -/
def rectify_and_clip (g : Grid) : Grid :=
  ⟨g.h, g.w, fun y x => min |g.data y x| MAX_VAL⟩

/-- ASCII whitespace, the byte-level reading of the regex class `\s`. -/
def isSpaceByte (b : Nat) : Bool :=
  b == 32 || b == 9 || b == 10 || b == 11 || b == 12 || b == 13

/-- Split off one line, as binary-mode file iteration does: everything up
to and including the first newline byte (or the whole rest at EOF). -/
def takeLine : List Nat → List Nat × List Nat
  | [] => ([], [])
  | b :: bs =>
    if b = 10 then ([10], bs)
    else
      let p := takeLine bs
      (b :: p.1, p.2)

/-- Comment-line test `re.search(r"^\s*#", line)` (line 76): optional
leading whitespace followed by `#`. -/
def isCommentLine (bs : List Nat) : Bool :=
  match bs.dropWhile isSpaceByte with
  | 35 :: _ => true
  | _ => false

/-- Maximal run of leading non-whitespace bytes, and the remainder. -/
def takeToken : List Nat → List Nat × List Nat
  | [] => ([], [])
  | b :: bs =>
    if isSpaceByte b then ([], b :: bs)
    else
      let p := takeToken bs
      (b :: p.1, p.2)

/-- Tokenisation `re.findall(r"\S+", line)` (line 79): the maximal runs
of non-whitespace bytes.  Fuelled recursion; each step consumes at least
one byte, so fuel `bs.length` suffices. -/
def splitTokensF : Nat → List Nat → List (List Nat)
  | 0, _ => []
  | _, [] => []
  | fuel + 1, b :: bs =>
    if isSpaceByte b then splitTokensF fuel bs
    else (b :: (takeToken bs).1) :: splitTokensF fuel (takeToken bs).2

/-- Tokenisation `re.findall(r"\S+", line)` on a whole line. -/
def splitTokens (bs : List Nat) : List (List Nat) :=
  splitTokensF bs.length bs

/-- Digit test `str.isdigit()` at its ASCII meaning: nonempty and all
decimal digits. -/
def isDigits (bs : List Nat) : Bool :=
  !bs.isEmpty && bs.all (fun b => decide (48 ≤ b ∧ b ≤ 57))

/-- Conversion `int(...)` on a string of ASCII decimal digits. -/
def natOfDigits (bs : List Nat) : Nat :=
  bs.foldl (fun acc b => acc * 10 + (b - 48)) 0

/-- The header-collection loop of `convert_pgm_to_np_arr` (lines 74-82):
iterate lines; skip comment lines; otherwise, while fewer than 4 header
strings have been collected, append the tokens of the line; stop as soon
as 4 or more strings are collected, leaving the rest of the file (the
raster) unread.  Fuelled on the byte count (each iteration consumes at
least one byte, so fuel `bs.length + 1` never runs out); returns the
collected strings and the unread remainder. -/
def headerLoopF : Nat → List Nat → List (List Nat) → List (List Nat) × List Nat
  | _, [], tokens => (tokens, [])
  | 0, bs, tokens => (tokens, bs)
  | fuel + 1, b :: bs, tokens =>
    let p := takeLine (b :: bs)
    let tokens' :=
      if isCommentLine p.1 then tokens
      else if tokens.length < 4 then tokens ++ splitTokens p.1
      else tokens
    if 4 ≤ tokens'.length then (tokens', p.2) else headerLoopF fuel p.2 tokens'

/-- Header parsing and validation of `convert_pgm_to_np_arr`
(lines 74-117): exactly 4 header strings, magic number `"P5"`
(bytes `[80, 53]`), decimal width, height and maximum grey value.
Returns `(width, height, maxval, raster bytes)`. -/
def parsePGMHeader (bs : List Nat) : Except PyErr (Nat × Nat × Nat × List Nat) :=
  let p := headerLoopF (bs.length + 1) bs []
  match p.1 with
  | [magic, wd, ht, mx] =>
    if magic = [80, 53] then
      if isDigits wd && isDigits ht then
        if isDigits mx then .ok (natOfDigits wd, natOfDigits ht, natOfDigits mx, p.2)
        else .error .formatError
      else .error .formatError
    else .error .formatError
  | _ => .error .formatError

/-- The raster-splitting loop of `convert_pgm_to_np_arr` (lines 128-140):
sample `(y, x)` is byte `y*wd + x` of the raster buffer, or 0 when the
buffer is too short. -/
def loadGrid (wd ht : Nat) (buf : List Nat) : Grid :=
  ⟨ht, wd, fun y x =>
    if y * wd + x < buf.length then ((buf.getD (y * wd + x) 0 : Nat) : Int) else 0⟩

/-- Model of `convert_pgm_to_np_arr` (lines 61-148).  The returned `Bool`
records whether the raster-size warning was logged (lines 122-127):
`false` when the buffer length matches `wd * ht` exactly, `true`
otherwise. -/
def convert_pgm_to_np_arr (bs : List Nat) : Except PyErr (Grid × Bool) :=
  match parsePGMHeader bs with
  | .error e => .error e
  | .ok (wd, ht, _mx, buf) =>
    .ok (loadGrid wd ht buf, if buf.length = wd * ht then false else true)

/-- ASCII decimal digits of `n`, most significant first (`f"{n}"`).
Fuelled recursion; `n + 1` division steps always suffice. -/
def decimalDigitsAux : Nat → Nat → List Nat
  | 0, _ => []
  | fuel + 1, n =>
    if n < 10 then [48 + n]
    else decimalDigitsAux fuel (n / 10) ++ [48 + n % 10]

/-- ASCII decimal digits of `n` (`f"{n}"`). -/
def decimalDigits (n : Nat) : List Nat :=
  decimalDigitsAux (n + 1) n

/-- The bytes that writing `chr(p)` to a text-mode (UTF-8) file handle
produces, for `0 ≤ p < 2048`: code points below 128 are one byte, the
rest are encoded as two bytes.  This is what line 171
(`out_fh.write(chr(p))` on a handle opened with `open(name, "w")`)
appends to the file. -/
def utf8Chr (p : Nat) : List Nat :=
  if p < 128 then [p] else [192 + p / 64, 128 + p % 64]

/-- Model of `np.ndarray.flatten` (line 170): the samples in row-major
order. -/
def rowMajorSamples (g : Grid) : List Int :=
  ((List.range g.h).map (fun y => (List.range g.w).map (fun x => g.data y x))).flatten

/-- Model of `convert_np_arr_to_pgm` (lines 150-175): the byte content of
the file it writes — the header `P5`, width, height and `MAX_VAL`, each
followed by a newline, then each sample written with `chr` through the
text-mode handle, then a final newline. -/
def convert_np_arr_to_pgm (g : Grid) : List Nat :=
  [80, 53, 10] ++ decimalDigits g.w ++ [10] ++ decimalDigits g.h ++ [10] ++
    decimalDigits MAX_VAL.toNat ++ [10] ++
    ((rowMajorSamples g).map (fun p => utf8Chr p.toNat)).flatten ++ [10]

/-- 2×2 input raster with a single 1 at `(0, 1)`. -/
def gridC1 : Grid := gridOfLists [[0, 1], [0, 0]]

/-- An all-zero 2×2 kernel (any non-3×3 kernel triggers the shape check). -/
def kernel2x2 : Grid := ⟨2, 2, fun _ _ => 0⟩

/-- A 2×2 raster of constant value 7. -/
def gridW8 : Grid := gridOfLists [[7, 7], [7, 7]]

/-- 3×3 raster whose interior pixel `(1, 1)` is extremal in neither of
its own 3-runs, but whose cell `(0, 0)` trivially is. -/
def gridC2 : Grid := gridOfLists [[0, 0, 0], [0, 1, 2], [0, 2, 0]]

/-- 3×3 raster: 100 at `(0, 0)` and a small value 10 at `(1, 1)`. -/
def gridC3 : Grid := gridOfLists [[100, 0, 0], [0, 10, 0], [0, 0, 0]]

/-- 3×3 raster: 100 at `(0, 0)` and a negative value -5 at `(1, 1)`. -/
def gridC4 : Grid := gridOfLists [[100, 0, 0], [0, -5, 0], [0, 0, 0]]

/-- 2×2 raster of constant value 100 (every cell is on the border). -/
def gridW10 : Grid := gridOfLists [[100, 100], [100, 100]]

/-- 1×1 raster with the single sample 200. -/
def gridC5 : Grid := gridOfLists [[200]]

/-- A 10-byte raster buffer (shorter than the 16 samples a 4×4 header
announces). -/
def buf9 : List Nat := [9, 8, 7, 6, 5, 4, 3, 2, 1, 0]

/-- A PGM file whose header declares width 4, height 4, maxval 255, but
whose raster supplies only the 10 bytes of `buf9`. -/
def file9 : List Nat :=
  [80, 53, 10] ++ [52, 10] ++ [52, 10] ++ [50, 53, 53, 10] ++ buf9

/-- C1: on the 2×2 raster `[[0,1],[0,0]]` the convolution stage outputs 0
at `(0, 0)` (the loops `range(shape-2)` are empty for a 2×2 input), while
the 3×3 stencil sum centred at `(0, 0)` over the edge-padded view is
`-2`; so the output does not equal the stencil sum at every unpadded
position. -/
theorem conv_skips_last_rows_cols :
    apply_conv_kernel gridC1 LAPLACIAN = Except.ok (conv_grid gridC1 LAPLACIAN) ∧
    (conv_grid gridC1 LAPLACIAN).data 0 0 = 0 ∧
    conv_at gridC1 LAPLACIAN 0 0 = -2 :=
  ⟨rfl, by decide, by decide⟩

/-- C2: on `gridC2` the thinning stage outputs 1 (the input value at
`(1, 1)`) even though pixel `(1, 1)` satisfies none of the four
inclusive-extremum conditions on its own runs — the code evaluates the
conditions at `arr_padded[1][1]`, i.e. input cell `(0, 0)` — so the
output is not 0 where the claim requires 0. -/
theorem thinning_checks_shifted_pixel :
    (apply_edge_thinning gridC2).data 1 1 = 1 ∧
    specThinKeep gridC2 1 1 = false ∧
    (1 : Int) ≠ 0 :=
  ⟨by decide, by decide, by decide⟩

/-- C3: on `gridC3` the tracking stage outputs 10 at `(1, 1)` — a nonzero
value with `0 < |10| ≤ THRESH_LO` — because the threshold test reads
`arr_padded[1][1]` (input cell `(0, 0)`, value 100) while copying the
input value at `(1, 1)`. -/
theorem tracking_keeps_subthreshold_pixel :
    (apply_edge_tracking gridC3).data 1 1 = 10 ∧
    0 < |(apply_edge_tracking gridC3).data 1 1| ∧
    |(apply_edge_tracking gridC3).data 1 1| ≤ THRESH_LO :=
  ⟨by decide, by decide, by decide⟩

/-- C4: on `gridC4` the strong grid and the weak grid are both `-5` at
`(1, 1)` (pass 2 skips only `strong > 0`, so a negative strong value is
stored again as weak), and the stage output is their sum `-10`, which
equals neither the input value `-5` nor 0. -/
theorem tracking_double_counts_negative_strong :
    (strong_pxls gridC4).data 1 1 = -5 ∧
    (weak_pxls gridC4).data 1 1 = -5 ∧
    (apply_edge_tracking gridC4).data 1 1 = -10 ∧
    gridC4.data 1 1 = -5 :=
  ⟨by decide, by decide, by decide, by decide⟩

/-- C5: the writer/loader round trip is not the identity: writing the 1×1
raster `[[200]]` and reading the file back yields 195 at `(0, 0)` (the
text-mode write UTF-8-encodes `chr(200)` as the two bytes `195, 136`),
not 200. -/
theorem pgm_roundtrip_corrupts_high_bytes :
    (convert_pgm_to_np_arr (convert_np_arr_to_pgm gridC5)).map (fun r => r.1.data 0 0) =
      Except.ok 195 ∧
    gridC5.data 0 0 = 200 :=
  ⟨rfl, rfl⟩

/-- C6: a non-3×3 kernel makes `apply_conv_kernel` fail with `TypeError`
(raised while formatting the error message, which calls the shape tuple),
not with the intended `NotImplementedError`/`ConfigurationError`. -/
theorem kernel_shape_check_raises_type_error :
    apply_conv_kernel gridC1 kernel2x2 = Except.error PyErr.typeError ∧
    PyErr.typeError ≠ PyErr.notImplementedError :=
  ⟨rfl, by decide⟩

/-- C7: normalization is idempotent —
`rectify_and_clip (rectify_and_clip g) = rectify_and_clip g`. -/
theorem rectify_and_clip_idempotent (g : Grid) :
    rectify_and_clip (rectify_and_clip g) = rectify_and_clip g := by
  unfold rectify_and_clip
  refine Grid.ext rfl rfl ?_
  funext y x
  show min |min |g.data y x| MAX_VAL| MAX_VAL = min |g.data y x| MAX_VAL
  have h0 : (0 : Int) ≤ min |g.data y x| MAX_VAL :=
    le_min (abs_nonneg _) (by norm_num [MAX_VAL])
  rw [abs_of_nonneg h0, min_assoc, min_self]

/-- C8: convolving any raster of one constant value `v ∈ [0, 255]` with
`LAPLACIAN` succeeds and produces the all-zero raster of the same
dimensions (border rows and columns included). -/
theorem conv_uniform_all_zero (g : Grid) (v : Int)
    (hh : 0 < g.h) (hw : 0 < g.w) (hv0 : 0 ≤ v) (hv1 : v ≤ 255)
    (hu : ∀ y, y < g.h → ∀ x, x < g.w → g.data y x = v) :
    apply_conv_kernel g LAPLACIAN = Except.ok ⟨g.h, g.w, fun _ _ => 0⟩ := by
  have hpad : ∀ i j, padEdge g i j = v := by
    intro i j
    have h1 : min (i - 1) (g.h - 1) ≤ g.h - 1 := min_le_right _ _
    have h2 : min (j - 1) (g.w - 1) ≤ g.w - 1 := min_le_right _ _
    exact hu _ (by omega) _ (by omega)
  unfold apply_conv_kernel
  rw [if_pos ⟨rfl, rfl⟩]
  refine congrArg Except.ok (Grid.ext rfl rfl ?_)
  funext y x
  show (if y < g.h - 2 ∧ x < g.w - 2 then conv_at g LAPLACIAN y x else 0) = 0
  by_cases hc : y < g.h - 2 ∧ x < g.w - 2
  · rw [if_pos hc]
    unfold conv_at
    simp only [hpad, LAPLACIAN]
    norm_num
    ring
  · rw [if_neg hc]

/-- Witness for C8 at the concrete 2×2 raster of constant value 7. -/
theorem conv_uniform_all_zero_witness :
    0 < gridW8.h ∧ 0 < gridW8.w ∧ (0 : Int) ≤ 7 ∧ (7 : Int) ≤ 255 ∧
    apply_conv_kernel gridW8 LAPLACIAN = Except.ok ⟨gridW8.h, gridW8.w, fun _ _ => 0⟩ :=
  ⟨by decide, by decide, by decide, by decide,
    conv_uniform_all_zero gridW8 7 (by decide) (by decide) (by decide) (by decide)
      (by decide)⟩

/-- C9: whenever the header parses as `(wd, ht, mx)` with a raster buffer
shorter than `wd * ht`, the loader succeeds (no error), records the
size warning, and returns the `ht × wd` grid whose first `buf.length`
row-major samples are the buffer bytes and whose missing trailing samples
are all 0. -/
theorem loader_zero_fills_short_raster (bs : List Nat) (wd ht mx : Nat)
    (buf : List Nat)
    (hp : parsePGMHeader bs = Except.ok (wd, ht, mx, buf))
    (hs : buf.length < wd * ht) :
    convert_pgm_to_np_arr bs = Except.ok (loadGrid wd ht buf, true) ∧
    (loadGrid wd ht buf).h = ht ∧ (loadGrid wd ht buf).w = wd ∧
    (∀ y x, y * wd + x < buf.length →
      (loadGrid wd ht buf).data y x = ((buf.getD (y * wd + x) 0 : Nat) : Int)) ∧
    (∀ y x, buf.length ≤ y * wd + x → (loadGrid wd ht buf).data y x = 0) := by
  refine ⟨?_, rfl, rfl, ?_, ?_⟩
  · unfold convert_pgm_to_np_arr
    rw [hp]
    have hne : ¬buf.length = wd * ht := Nat.ne_of_lt hs
    show Except.ok (loadGrid wd ht buf, if buf.length = wd * ht then false else true) =
      Except.ok (loadGrid wd ht buf, true)
    rw [if_neg hne]
  · intro y x hlt
    show (if y * wd + x < buf.length then ((buf.getD (y * wd + x) 0 : Nat) : Int) else 0) = _
    rw [if_pos hlt]
  · intro y x hge
    show (if y * wd + x < buf.length then ((buf.getD (y * wd + x) 0 : Nat) : Int) else 0) = 0
    rw [if_neg (by omega)]

/-- Witness for C9: the concrete file `file9` (header `4 4 255`, raster
of 10 bytes). -/
theorem loader_zero_fills_short_raster_witness :
    parsePGMHeader file9 = Except.ok (4, 4, 255, buf9) ∧ buf9.length < 4 * 4 ∧
    (convert_pgm_to_np_arr file9 = Except.ok (loadGrid 4 4 buf9, true) ∧
     (loadGrid 4 4 buf9).h = 4 ∧ (loadGrid 4 4 buf9).w = 4 ∧
     (∀ y x, y * 4 + x < buf9.length →
       (loadGrid 4 4 buf9).data y x = ((buf9.getD (y * 4 + x) 0 : Nat) : Int)) ∧
     (∀ y x, buf9.length ≤ y * 4 + x → (loadGrid 4 4 buf9).data y x = 0)) :=
  ⟨rfl, by decide, loader_zero_fills_short_raster file9 4 4 255 buf9 rfl (by decide)⟩

/-- C10: every pixel on the first row, last row, first column or last
column of the tracking output is zero: both passes write only interior
positions. -/
theorem tracking_border_zero (g : Grid) (hh : 0 < g.h) (hw : 0 < g.w)
    (y x : Nat) (hb : y = 0 ∨ y = g.h - 1 ∨ x = 0 ∨ x = g.w - 1) :
    (apply_edge_tracking g).data y x = 0 := by
  have hni : ¬(1 ≤ y ∧ y < g.h - 1 ∧ 1 ≤ x ∧ x < g.w - 1) := by
    rcases hb with h | h | h | h <;> omega
  show (strong_pxls g).data y x + (weak_pxls g).data y x = 0
  simp only [strong_pxls, weak_pxls, if_neg hni]
  norm_num

/-- Witness for C10 at the 2×2 constant raster, border position `(0, 1)`. -/
theorem tracking_border_zero_witness :
    0 < gridW10.h ∧ 0 < gridW10.w ∧
    ((0 : Nat) = 0 ∨ (0 : Nat) = gridW10.h - 1 ∨ (1 : Nat) = 0 ∨ (1 : Nat) = gridW10.w - 1) ∧
    (apply_edge_tracking gridW10).data 0 1 = 0 :=
  ⟨by decide, by decide, Or.inl rfl,
    tracking_border_zero gridW10 (by decide) (by decide) 0 1 (Or.inl rfl)⟩
